import Mathlib

/-!
Verification of the scheduling and state-tracking core of the
homebridge-controller repository: the solar-time cache (`src/suntimes.rs`),
the bridge session client (`src/homebridge.rs`), and the two program state
machines (`src/programs/turn_morning_lights_off.rs`,
`src/programs/control_evening_lights.rs`).

The Rust code is shallowly embedded: every async function that talks to the
network becomes a pure Lean function taking an explicit environment record
that carries the results the network would have produced (one field per
external call the function makes), and returning the updated state together
with the list of device commands it issued and its outcome.  Rust `panic!`
and `unwrap()` aborts are modelled by a distinguished `panicked` outcome
constructor, so that aborting and returning a typed error stay
distinguishable.  `chrono` local datetimes are modelled as a calendar-day
ordinal plus seconds-since-midnight; `chrono` wrapping time-of-day addition
is Euclidean remainder by 86400.  `f32` arithmetic in the evening program's
interpolation is modelled over `ℚ`, with Rust's saturating float-to-`u8`
cast modelled by flooring and clamping to `[0, 255]`.
-/

/-- A `chrono::DateTime<Local>` instant: `day` is the local calendar-day
ordinal (`date_naive`), `tod` the seconds since local midnight
(`num_seconds_from_midnight`), kept in `[0, 86400)` by all constructors
used below. -/
structure LocalDT where
  day : Int
  tod : Int
deriving DecidableEq, Repr

/-- Total seconds on the local timeline, for instant comparison and
instant arithmetic (`DateTime` ordering and `DateTime ± Duration`). -/
def LocalDT.toSecs (t : LocalDT) : Int :=
  t.day * 86400 + t.tod

/-- Rebuild an instant from total seconds; `tod` lands in `[0, 86400)`
because `Int.emod` with a positive modulus is non-negative. -/
def LocalDT.ofSecs (s : Int) : LocalDT :=
  ⟨s / 86400, s % 86400⟩

/-- `DateTime<Local> + Duration::minutes(m)` on the instant timeline. -/
def LocalDT.addMinutes (t : LocalDT) (m : Int) : LocalDT :=
  LocalDT.ofSecs (t.toSecs + m * 60)

/-- `Timelike::minute()`: the minute-of-hour of an instant. -/
def LocalDT.minuteOfHour (t : LocalDT) : Int :=
  t.tod / 60 % 60

/-- `chrono::NaiveTime + Duration` wraps around midnight: addition of
seconds modulo 86400 on the time-of-day. -/
def addClock (t d : Int) : Int :=
  (t + d) % 86400

/-- Outcome of running a piece of Rust code that can return `Ok`, return a
typed error, or abort the process (`panic!` / `.unwrap()`).  The `panicked`
constructor records the panic message. -/
inductive RunOutcome (ε : Type) (α : Type) where
  | ok (a : α)
  | err (e : ε)
  | panicked (msg : String)
deriving DecidableEq, Repr

/-! ## `src/suntimes.rs` -/

/-- `SuntimesError` from `src/suntimes.rs` (the `FailedConnection` payload
is the rendered `reqwest` error message). -/
inductive SuntimesError where
  | ParseError (msg : String)
  | FailedConnection (msg : String)
  | FailedAssumption (msg : String)
deriving DecidableEq, Repr

/-- The `SunTimes` struct: fixed coordinates plus the two cached optional
local-timezone instants. -/
structure SunTimes where
  longitude : ℚ
  latitude : ℚ
  sunrise : Option LocalDT
  sunset : Option LocalDT
deriving DecidableEq, Repr

/-- Decidable equality for `Except`, used to keep every environment record
comparable by `decide` in concrete witnesses. -/
instance {ε α : Type} [DecidableEq ε] [DecidableEq α] : DecidableEq (Except ε α) :=
  fun a b =>
    match a, b with
    | Except.ok x, Except.ok y =>
      if h : x = y then isTrue (by rw [h])
      else isFalse (by intro hc; cases hc; exact h rfl)
    | Except.error x, Except.error y =>
      if h : x = y then isTrue (by rw [h])
      else isFalse (by intro hc; cases hc; exact h rfl)
    | Except.ok _, Except.error _ => isFalse (by intro hc; cases hc)
    | Except.error _, Except.ok _ => isFalse (by intro hc; cases hc)

/-- What the single HTTP GET in `collect_sunrise_sunset_data` produced:
the send failed (`reqwest` error), the body did not deserialize into
`SunriseSunsetResponse`, or a response whose two timestamp strings each
either parse to a local instant or fail with a message (their RFC 3339
parsing and UTC→Local conversion is folded into the environment). -/
inductive FetchResult where
  | connError (msg : String)
  | badBody (msg : String)
  | gotTimes (sunriseRes : Except String LocalDT) (sunsetRes : Except String LocalDT)
deriving DecidableEq, Repr

/-- Environment for one `SunTimes` query: today's local calendar date
(`Local::now().date_naive()`) and the result of the external call, were it
to be made. -/
structure SuntimesEnv where
  today : Int
  fetch : FetchResult
deriving DecidableEq, Repr

/-- `SunTimes::collect_sunrise_sunset_data` (suntimes.rs:48-79).  A failed
send hits `panic!("{}", e)` (line 57) and a body that does not deserialize
hits `.unwrap()` (line 54): both abort.  A timestamp string that fails to
parse returns the typed `ParseError` before either field is written; both
cache fields are assigned together only after both parses succeed
(lines 76-77). -/
def SunTimes.collect_sunrise_sunset_data (st : SunTimes) (env : SuntimesEnv) :
    SunTimes × RunOutcome SuntimesError Unit :=
  match env.fetch with
  | FetchResult.connError m => (st, RunOutcome.panicked m)
  | FetchResult.badBody m => (st, RunOutcome.panicked m)
  | FetchResult.gotTimes sunriseRes sunsetRes =>
    match sunriseRes with
    | Except.error e =>
        (st, RunOutcome.err (SuntimesError.ParseError
          ("Error parsing sunrise datetime: " ++ e)))
    | Except.ok sunrise =>
      match sunsetRes with
      | Except.error e =>
          (st, RunOutcome.err (SuntimesError.ParseError
            ("Error parsing sunset datetime: " ++ e)))
      | Except.ok sunset =>
          ({ st with sunrise := some sunrise, sunset := some sunset },
            RunOutcome.ok ())

/-- The shared refresh-then-reread tail of `SunTimes::sunrise`
(suntimes.rs:88-97): run the collector, propagate its abort or error, then
re-read the field. -/
def SunTimes.sunriseRefresh (st : SunTimes) (env : SuntimesEnv) :
    SunTimes × RunOutcome SuntimesError LocalDT :=
  match st.collect_sunrise_sunset_data env with
  | (st', RunOutcome.panicked m) => (st', RunOutcome.panicked m)
  | (st', RunOutcome.err e) => (st', RunOutcome.err e)
  | (st', RunOutcome.ok _) =>
    match st'.sunrise with
    | some sunrise => (st', RunOutcome.ok sunrise)
    | none =>
        (st', RunOutcome.err (SuntimesError.FailedAssumption
          "Sunrise times should be set at this point."))

/-- `SunTimes::sunrise` (suntimes.rs:81-98): return the cached value when
its local calendar date is today's, otherwise refresh first. -/
def SunTimes.sunriseQuery (st : SunTimes) (env : SuntimesEnv) :
    SunTimes × RunOutcome SuntimesError LocalDT :=
  match st.sunrise with
  | some sunrise =>
    if sunrise.day = env.today then (st, RunOutcome.ok sunrise)
    else st.sunriseRefresh env
  | none => st.sunriseRefresh env

/-- The refresh-then-reread tail of `SunTimes::sunset`
(suntimes.rs:107-116). -/
def SunTimes.sunsetRefresh (st : SunTimes) (env : SuntimesEnv) :
    SunTimes × RunOutcome SuntimesError LocalDT :=
  match st.collect_sunrise_sunset_data env with
  | (st', RunOutcome.panicked m) => (st', RunOutcome.panicked m)
  | (st', RunOutcome.err e) => (st', RunOutcome.err e)
  | (st', RunOutcome.ok _) =>
    match st'.sunset with
    | some sunset => (st', RunOutcome.ok sunset)
    | none =>
        (st', RunOutcome.err (SuntimesError.FailedAssumption
          "Sunrise times should be set at this point."))

/-- `SunTimes::sunset` (suntimes.rs:100-117). -/
def SunTimes.sunsetQuery (st : SunTimes) (env : SuntimesEnv) :
    SunTimes × RunOutcome SuntimesError LocalDT :=
  match st.sunset with
  | some sunset =>
    if sunset.day = env.today then (st, RunOutcome.ok sunset)
    else st.sunsetRefresh env
  | none => st.sunsetRefresh env

/-! ## `src/homebridge.rs` -/

/-- `HBError` from `src/homebridge.rs` (payloads are the rendered
messages). -/
inductive HBError where
  | UnableToConnect (msg : String)
  | ParsingError (msg : String)
  | AuthError (msg : String)
  | NoAccessToken
  | UnrecognizedAccessory (name : String)
deriving DecidableEq, Repr

/-- The parsed body of a successful login (`HBAuth`). -/
structure HBAuth where
  access_token : String
  token_type : String
  expires_in : Nat
deriving DecidableEq, Repr

/-- `HBLightbulbValues`: the five characteristic values of the bulb.
The source field `on` (a `u32`) is named `On` here, after its serde
PascalCase wire name, because `on` is reserved in Lean; all numeric fields
are non-negative machine integers, modelled as `Nat`. -/
structure HBLightbulbValues where
  On : Nat
  brightness : Nat
  color_temperature : Nat
  hue : Nat
  saturation : Nat
deriving DecidableEq, Repr

/-- `HBLightbulbValues::is_on` (homebridge.rs:81-83). -/
def HBLightbulbValues.is_on (v : HBLightbulbValues) : Bool :=
  v.On == 1

/-- `HBLightbulbValues::is_off` (homebridge.rs:84-86). -/
def HBLightbulbValues.is_off (v : HBLightbulbValues) : Bool :=
  !v.is_on

/-- The `Homebridge` session struct.  The expiry instant
`access_token_expiration` is a `DateTime<Local>` in the source; since only
its total ordering against `Local::now()` matters, it is modelled as the
instant's total-seconds value.  The accessory-UUID cache is an association
list. -/
structure Homebridge where
  ip_address : String
  username : String
  password : String
  access_token : Option String
  access_token_expiration : Option Int
  accessory_uuids : List (String × String)
deriving DecidableEq, Repr

/-- What the `POST /api/auth/login` exchange in `renew_access_token`
produced: a transport failure on send, or an HTTP status together with the
result of deserializing the body as `HBAuth`. -/
inductive LoginResult where
  | connError (msg : String)
  | status (code : Nat) (body : Except String HBAuth)
deriving DecidableEq, Repr

/-- Environment for one `access_token` call: the current instant
(`Local::now()`, as total seconds) and the login exchange's result were it
to be performed. -/
structure LoginEnv where
  now : Int
  login : LoginResult
deriving DecidableEq, Repr

/-- `Homebridge::renew_access_token` (homebridge.rs:115-137): only a
CREATED (201) status with a parseable body stores anything, and then it
stores the token and the expiry `now + expires_in - 60` seconds together;
every failure path returns before either field is touched. -/
def Homebridge.renew_access_token (hb : Homebridge) (env : LoginEnv) :
    Homebridge × Except HBError Unit :=
  match env.login with
  | LoginResult.connError m => (hb, Except.error (HBError.UnableToConnect m))
  | LoginResult.status code body =>
    if code = 201 then
      match body with
      | Except.error e =>
          (hb, Except.error (HBError.ParsingError
            ("Error parsing HBAuth data - " ++ e)))
      | Except.ok parsed_auth =>
          ({ hb with
              access_token := some parsed_auth.access_token,
              access_token_expiration :=
                some (env.now + (parsed_auth.expires_in : Int) - 60) },
            Except.ok ())
    else
      (hb, Except.error (HBError.AuthError "Status code not CREATED"))

/-- `Homebridge::access_token` (homebridge.rs:139-153), also counting how
many login exchanges were performed (0 or 1).  Renew when the token or the
expiry is absent, or when the expiry lies strictly in the past; then hand
back whatever token is stored. -/
def Homebridge.accessToken (hb : Homebridge) (env : LoginEnv) :
    Homebridge × Nat × Except HBError String :=
  let step : Homebridge × Nat × Except HBError Unit :=
    if hb.access_token.isNone || hb.access_token_expiration.isNone then
      let (hb', r) := hb.renew_access_token env
      (hb', 1, r)
    else
      match hb.access_token_expiration with
      | some access_token_expiration =>
        if access_token_expiration < env.now then
          let (hb', r) := hb.renew_access_token env
          (hb', 1, r)
        else (hb, 0, Except.ok ())
      | none => (hb, 0, Except.ok ())
  match step with
  | (hb', n, Except.error e) => (hb', n, Except.error e)
  | (hb', n, Except.ok _) =>
    match hb'.access_token with
    | some token => (hb', n, Except.ok token)
    | none => (hb', n, Except.error HBError.NoAccessToken)

/-- Environment for one `set_bedlight` call: the result of each of the
five characteristic PUTs, were each to be issued (the token and UUID
lookups inside `_set_bedlight` are folded into each write's result). -/
structure SetBedlightEnv where
  onRes : Except HBError Unit
  brightnessRes : Except HBError Unit
  colorTemperatureRes : Except HBError Unit
  hueRes : Except HBError Unit
  saturationRes : Except HBError Unit
deriving DecidableEq, Repr

/-- The five write results in the order the source issues them. -/
def SetBedlightEnv.results (env : SetBedlightEnv) : List (Except HBError Unit) :=
  [env.onRes, env.brightnessRes, env.colorTemperatureRes, env.hueRes,
    env.saturationRes]

/-- The five `(characteristicType, value)` bodies `set_bedlight` sends, in
source order (homebridge.rs:285-298); each value is stringified as in the
source. -/
def fiveWrites (values : HBLightbulbValues) : List (String × String) :=
  [("On", toString values.On),
   ("Brightness", toString values.brightness),
   ("ColorTemperature", toString values.color_temperature),
   ("Hue", toString values.hue),
   ("Saturation", toString values.saturation)]

/-- `Homebridge::set_bedlight` (homebridge.rs:279-300): five sequential
`_set_bedlight` calls, each followed by `?`, so the first failure returns
immediately and later writes are never attempted.  Returns the list of
writes actually issued (in order) and the overall result. -/
def Homebridge.set_bedlight (values : HBLightbulbValues) (env : SetBedlightEnv) :
    List (String × String) × Except HBError Unit :=
  match env.onRes with
  | Except.error e => ([("On", toString values.On)], Except.error e)
  | Except.ok _ =>
  match env.brightnessRes with
  | Except.error e =>
      ([("On", toString values.On), ("Brightness", toString values.brightness)],
        Except.error e)
  | Except.ok _ =>
  match env.colorTemperatureRes with
  | Except.error e =>
      ([("On", toString values.On), ("Brightness", toString values.brightness),
        ("ColorTemperature", toString values.color_temperature)],
        Except.error e)
  | Except.ok _ =>
  match env.hueRes with
  | Except.error e =>
      ([("On", toString values.On), ("Brightness", toString values.brightness),
        ("ColorTemperature", toString values.color_temperature),
        ("Hue", toString values.hue)],
        Except.error e)
  | Except.ok _ =>
  match env.saturationRes with
  | Except.error e =>
      ([("On", toString values.On), ("Brightness", toString values.brightness),
        ("ColorTemperature", toString values.color_temperature),
        ("Hue", toString values.hue), ("Saturation", toString values.saturation)],
        Except.error e)
  | Except.ok _ =>
      ([("On", toString values.On), ("Brightness", toString values.brightness),
        ("ColorTemperature", toString values.color_temperature),
        ("Hue", toString values.hue), ("Saturation", toString values.saturation)],
        Except.ok ())

/-! ## `src/programs/turn_morning_lights_off.rs` -/

/-- `TurnMorningLightsOffProgramError` from
`src/programs/turn_morning_lights_off.rs`. -/
inductive TurnMorningLightsOffProgramError where
  | ParseError (msg : String)
  | HomebridgeInteraction (e : HBError)
  | ConfigError (msg : String)
  | NoSunTimesData (e : SuntimesError)
deriving DecidableEq, Repr

/-- `TurningMorningLightsOffConfig` from `src/configuration.rs`: the
configured off time is a raw string still to be parsed. -/
structure TurningMorningLightsOffConfig where
  active : Bool
  duration : Nat
  off_time : Option String
  after_sunrise : Option Int
  last_call_after_scheduled_off : Nat
deriving DecidableEq, Repr

/-- The `TurnMorningLightsOffProgram` struct; `off_time` is the parsed
`NaiveTime` as seconds since midnight, `last_turned_light_off` the
`DateTime<Local>` of the last confirmed off-action. -/
structure TurnMorningLightsOffProgram where
  duration : Nat
  off_time : Option Int
  after_sunrise : Option Int
  active : Bool
  last_call_after_scheduled_off : Nat
  last_turned_light_off : Option LocalDT
deriving DecidableEq, Repr

/-- Split a string at `:` and read each piece as a decimal `Nat`, or fail.
Helper for `parseHMS`. -/
def hmsFields (s : String) : Option (List Nat) :=
  (s.split (fun c => c = ':')).mapM String.toNat?

/-- Model of `NaiveTime::parse_from_str(t, "%H:%M:%S")`: three
colon-separated decimal fields within clock bounds, yielding seconds since
midnight.  (Only the success/failure split and the successful value matter
to the claims; no claim exercises chrono's laxer digit-count rules.) -/
def parseHMS (s : String) : Option Int :=
  match hmsFields s with
  | some [h, m, sec] =>
    if h < 24 && m < 60 && sec < 60 then some ((h * 3600 + m * 60 + sec : Nat) : Int)
    else none
  | _ => none

/-- `TurnMorningLightsOffProgram::new` (turn_morning_lights_off.rs:31-60).
When both `off_time` and `after_sunrise` are `None` the source only issues
`warn!` (line 37) and construction still succeeds; the only failure path
is an unparseable `off_time` string. -/
def TurnMorningLightsOffProgram.new (config : TurningMorningLightsOffConfig) :
    Except TurnMorningLightsOffProgramError TurnMorningLightsOffProgram :=
  match config.off_time with
  | some t =>
    match parseHMS t with
    | none =>
        Except.error (TurnMorningLightsOffProgramError.ParseError
          ("Error parsing off time: " ++ t))
    | some parsed =>
        Except.ok
          { duration := config.duration
            off_time := some parsed
            after_sunrise := config.after_sunrise
            active := config.active
            last_call_after_scheduled_off := config.last_call_after_scheduled_off
            last_turned_light_off := none }
  | none =>
      Except.ok
        { duration := config.duration
          off_time := none
          after_sunrise := config.after_sunrise
          active := config.active
          last_call_after_scheduled_off := config.last_call_after_scheduled_off
          last_turned_light_off := none }

/-- The single device command the morning program can issue
(`turn_bedlight_off`). -/
inductive MorningCmd where
  | turnOff
deriving DecidableEq, Repr

/-- Environment for one tick of the morning program: the current local
instant, the result `suntimes.sunrise` would yield, and the results of the
off-write and of the post-write `bed_light_is_off` read, were they to be
performed. -/
structure MorningEnv where
  now : LocalDT
  sunrise : RunOutcome SuntimesError LocalDT
  turnOffResult : Except HBError Unit
  bedLightIsOff : Except HBError Bool
deriving DecidableEq, Repr

/-- The `if let Some(last_turned_off) = ...` date check of
turn_morning_lights_off.rs:79-84. -/
def TurnMorningLightsOffProgram.firedToday (p : TurnMorningLightsOffProgram)
    (now : LocalDT) : Bool :=
  match p.last_turned_light_off with
  | some last_turned_off => last_turned_off.day == now.day
  | none => false

/-- The effective off-time computation of turn_morning_lights_off.rs:87-102:
the configured absolute time wins; else sunrise plus the offset (a wrapping
`NaiveTime` addition); else the defensive `ConfigError`. -/
def TurnMorningLightsOffProgram.offTimeFor (p : TurnMorningLightsOffProgram)
    (env : MorningEnv) : RunOutcome TurnMorningLightsOffProgramError Int :=
  match p.off_time, p.after_sunrise with
  | some ot, _ => RunOutcome.ok ot
  | none, some after_sunrise =>
    match env.sunrise with
    | RunOutcome.panicked m => RunOutcome.panicked m
    | RunOutcome.err e =>
        RunOutcome.err (TurnMorningLightsOffProgramError.NoSunTimesData e)
    | RunOutcome.ok sunrise => RunOutcome.ok (addClock sunrise.tod (after_sunrise * 60))
  | none, none =>
      RunOutcome.err (TurnMorningLightsOffProgramError.ConfigError
        "Both off-times are None.")

/-- `TurnMorningLightsOffProgram::run` (turn_morning_lights_off.rs:64-127).
Returns the updated program state, the commands issued this tick, and the
tick's outcome.  `last_turned_light_off` is written only on the branch
where the post-write read confirms the light off (lines 120-122). -/
def TurnMorningLightsOffProgram.run (p : TurnMorningLightsOffProgram)
    (env : MorningEnv) :
    TurnMorningLightsOffProgram × List MorningCmd ×
      RunOutcome TurnMorningLightsOffProgramError Unit :=
  if p.active = false then (p, [], RunOutcome.ok ())
  else if p.firedToday env.now then (p, [], RunOutcome.ok ())
  else
    match p.offTimeFor env with
    | RunOutcome.panicked m => (p, [], RunOutcome.panicked m)
    | RunOutcome.err e => (p, [], RunOutcome.err e)
    | RunOutcome.ok off_time =>
      if env.now.tod < off_time then (p, [], RunOutcome.ok ())
      else if addClock off_time ((p.last_call_after_scheduled_off : Int) * 60)
          < env.now.tod then
        (p, [], RunOutcome.ok ())
      else
        match env.turnOffResult with
        | Except.error e =>
            (p, [MorningCmd.turnOff],
              RunOutcome.err
                (TurnMorningLightsOffProgramError.HomebridgeInteraction e))
        | Except.ok _ =>
          match env.bedLightIsOff with
          | Except.error e =>
              (p, [MorningCmd.turnOff],
                RunOutcome.err
                  (TurnMorningLightsOffProgramError.HomebridgeInteraction e))
          | Except.ok true =>
              ({ p with last_turned_light_off := some env.now },
                [MorningCmd.turnOff], RunOutcome.ok ())
          | Except.ok false => (p, [MorningCmd.turnOff], RunOutcome.ok ())

/-- A tick that issued the off command, saw the write succeed, and saw the
post-write read confirm the light off: the "successful off-command" of the
once-per-day invariant. -/
def morningSuccess (p : TurnMorningLightsOffProgram) (env : MorningEnv) : Prop :=
  (p.run env).2.1 ≠ [] ∧ env.turnOffResult = Except.ok () ∧
    env.bedLightIsOff = Except.ok true

instance (p : TurnMorningLightsOffProgram) (env : MorningEnv) :
    Decidable (morningSuccess p env) := by
  unfold morningSuccess; infer_instance

/-- Number of successful off-commands over a sequence of ticks, threading
the program state tick to tick. -/
def morningSuccessCount (p : TurnMorningLightsOffProgram) :
    List MorningEnv → Nat
  | [] => 0
  | env :: rest =>
    (if morningSuccess p env then 1 else 0) +
      morningSuccessCount (p.run env).1 rest

/-! ## `src/programs/control_evening_lights.rs` -/

/-- `ControlEveningLightsProgramError` from
`src/programs/control_evening_lights.rs`. -/
inductive ControlEveningLightsProgramError where
  | ParseError (msg : String)
  | HomebridgeInteraction (e : HBError)
  | ConfigurationError (msg : String)
  | NoSunTimesData (e : SuntimesError)
deriving DecidableEq, Repr

/-- `LightsHistory`: timestamp and brightness of the last value this
program set. -/
structure LightsHistory where
  when : LocalDT
  brightness : Nat
deriving DecidableEq, Repr

/-- `ControlEveningLightsConfig` from `src/configuration.rs`. -/
structure ControlEveningLightsConfig where
  active : Bool
  minutes_before_sunset_start : Int
  minutes_after_sunset_peak : Int
  minutes_after_sunset_finish : Int
  start_brightness : Nat
  max_brightness : Nat
  final_brightness : Nat
deriving DecidableEq, Repr

/-- The `ControlEveningLightsProgram` struct. -/
structure ControlEveningLightsProgram where
  active : Bool
  minutes_before_sunset_start : Int
  minutes_after_sunset_peak : Int
  minutes_after_sunset_finish : Int
  start_brightness : Nat
  max_brightness : Nat
  final_brightness : Nat
  history : Option LightsHistory
deriving DecidableEq, Repr

/-- `ControlEveningLightsProgram::new` (control_evening_lights.rs:42-68):
window geometry is validated (`-start ≤ peak` and `peak ≤ finish`),
history starts empty. -/
def ControlEveningLightsProgram.new (config : ControlEveningLightsConfig) :
    Except ControlEveningLightsProgramError ControlEveningLightsProgram :=
  if ¬ (-1 * config.minutes_before_sunset_start ≤ config.minutes_after_sunset_peak) then
    Except.error (ControlEveningLightsProgramError.ConfigurationError
      "The start time must precede the peak time.")
  else if ¬ (config.minutes_after_sunset_peak ≤ config.minutes_after_sunset_finish) then
    Except.error (ControlEveningLightsProgramError.ConfigurationError
      "The time for peak must precede the finish time.")
  else
    Except.ok
      { active := config.active
        minutes_before_sunset_start := config.minutes_before_sunset_start
        minutes_after_sunset_peak := config.minutes_after_sunset_peak
        minutes_after_sunset_finish := config.minutes_after_sunset_finish
        start_brightness := config.start_brightness
        max_brightness := config.max_brightness
        final_brightness := config.final_brightness
        history := none }

/-- Rust `f32 as u8`: truncate toward zero and saturate into `[0, 255]`.
After the clamp at 0 this coincides with flooring for every rational. -/
def floatToU8 (q : ℚ) : Nat :=
  (max 0 (min 255 ⌊q⌋)).toNat

/-- `TimeBrightCoord::sec_since_midnight`
(control_evening_lights.rs:82-84): `num_seconds_from_midnight` of the
coordinate's instant, as the rational the `f32` arithmetic works on. -/
def secSinceMidnight (t : LocalDT) : ℚ :=
  (t.tod : ℚ)

/-- `ControlEveningLightsProgram::current_brightness`
(control_evening_lights.rs:88-121): choose the two anchor coordinates by
comparing `now` with the peak instant, then evaluate the two-point line at
`now`'s seconds-since-midnight and cast to `u8`.  The `f32` arithmetic is
idealized over `ℚ` (in `ℚ`, division by a zero denominator yields 0 where
`f32` would give an infinity or NaN; no claim depends on that corner). -/
def ControlEveningLightsProgram.current_brightness
    (p : ControlEveningLightsProgram) (now sunset : LocalDT) : Nat :=
  let peak_time := sunset.addMinutes p.minutes_after_sunset_peak
  let c1c2 : (LocalDT × ℚ) × (LocalDT × ℚ) :=
    if now.toSecs ≤ peak_time.toSecs then
      ((sunset.addMinutes (-p.minutes_before_sunset_start), (p.start_brightness : ℚ)),
        (sunset.addMinutes p.minutes_after_sunset_peak, (p.max_brightness : ℚ)))
    else
      ((sunset.addMinutes p.minutes_after_sunset_peak, (p.max_brightness : ℚ)),
        (sunset.addMinutes p.minutes_after_sunset_finish, (p.final_brightness : ℚ)))
  let c1 := c1c2.1
  let c2 := c1c2.2
  let slope := (c1.2 - c2.2) / (secSinceMidnight c1.1 - secSinceMidnight c2.1)
  let brightness := slope * ((now.tod : ℚ) - secSinceMidnight c1.1) + c1.2
  floatToU8 brightness

/-- The `start <= now && now <= peak` window test of
control_evening_lights.rs:139-142 (instant comparison). -/
def evInA (p : ControlEveningLightsProgram) (sunset now : LocalDT) : Prop :=
  (sunset.addMinutes (-p.minutes_before_sunset_start)).toSecs ≤ now.toSecs ∧
    now.toSecs ≤ (sunset.addMinutes p.minutes_after_sunset_peak).toSecs

/-- The `peak < now && now <= end` window test of
control_evening_lights.rs:140-143. -/
def evInB (p : ControlEveningLightsProgram) (sunset now : LocalDT) : Prop :=
  (sunset.addMinutes p.minutes_after_sunset_peak).toSecs < now.toSecs ∧
    now.toSecs ≤ (sunset.addMinutes p.minutes_after_sunset_finish).toSecs

instance (p : ControlEveningLightsProgram) (sunset now : LocalDT) :
    Decidable (evInA p sunset now) := by unfold evInA; infer_instance

instance (p : ControlEveningLightsProgram) (sunset now : LocalDT) :
    Decidable (evInB p sunset now) := by unfold evInB; infer_instance

/-- The device commands the evening program can issue. -/
inductive EveningCmd where
  | turnOn
  | setBrightness (b : Nat)
deriving DecidableEq, Repr

/-- Environment for one tick of the evening program: the current instant,
the result `suntimes.sunset` would yield, the result of the
`get_bed_light_status` read, the later `bed_light_is_off` re-read, and the
results of the on-write and brightness-write, were each to be
performed. -/
structure EveningEnv where
  now : LocalDT
  sunset : RunOutcome SuntimesError LocalDT
  currentBulb : Except HBError HBLightbulbValues
  bedLightOffCheck : Except HBError Bool
  turnOnResult : Except HBError Unit
  setBrightnessResult : Except HBError Unit
deriving DecidableEq, Repr

/-- The brightness write and history record at the end of `run`
(control_evening_lights.rs:199-207), shared by the bulb-was-on and
bulb-was-off paths; `before` carries the `turn_bedlight_on` command when
one was issued. -/
def ControlEveningLightsProgram.finishWrite (p : ControlEveningLightsProgram)
    (env : EveningEnv) (new_brightness : Nat) (before : List EveningCmd) :
    ControlEveningLightsProgram × List EveningCmd ×
      RunOutcome ControlEveningLightsProgramError Unit :=
  match env.setBrightnessResult with
  | Except.error e =>
      (p, before ++ [EveningCmd.setBrightness new_brightness],
        RunOutcome.err (ControlEveningLightsProgramError.HomebridgeInteraction e))
  | Except.ok _ =>
      ({ p with history := some ⟨env.now, new_brightness⟩ },
        before ++ [EveningCmd.setBrightness new_brightness],
        RunOutcome.ok ())

/-- The acting tail of `run` (control_evening_lights.rs:178-207): compute
the interpolated target, clamp it against the current brightness by phase
(floor in A, cap in B), skip a zero or unchanged target, turn the bulb on
first if it reads off, then write and record history. -/
def ControlEveningLightsProgram.act (p : ControlEveningLightsProgram)
    (env : EveningEnv) (sunset : LocalDT) (current_bulb : HBLightbulbValues) :
    ControlEveningLightsProgram × List EveningCmd ×
      RunOutcome ControlEveningLightsProgramError Unit :=
  let base := p.current_brightness env.now sunset
  let new_brightness :=
    if evInA p sunset env.now then max base current_bulb.brightness
    else if evInB p sunset env.now then min base current_bulb.brightness
    else base
  if new_brightness = 0 then (p, [], RunOutcome.ok ())
  else if new_brightness = current_bulb.brightness then (p, [], RunOutcome.ok ())
  else
    match env.bedLightOffCheck with
    | Except.error e =>
        (p, [],
          RunOutcome.err (ControlEveningLightsProgramError.HomebridgeInteraction e))
    | Except.ok true =>
      match env.turnOnResult with
      | Except.error e =>
          (p, [EveningCmd.turnOn],
            RunOutcome.err
              (ControlEveningLightsProgramError.HomebridgeInteraction e))
      | Except.ok _ => p.finishWrite env new_brightness [EveningCmd.turnOn]
    | Except.ok false => p.finishWrite env new_brightness []

/-- `ControlEveningLightsProgram::run` (control_evening_lights.rs:123-208).
Outside both phases the history is cleared and nothing else happens; inside
the window the interference guards (bulb off with history, brightness
changed externally, already acted this minute-of-hour) each no-op with the
state untouched; otherwise the acting tail runs. -/
def ControlEveningLightsProgram.run (p : ControlEveningLightsProgram)
    (env : EveningEnv) :
    ControlEveningLightsProgram × List EveningCmd ×
      RunOutcome ControlEveningLightsProgramError Unit :=
  match env.sunset with
  | RunOutcome.panicked m => (p, [], RunOutcome.panicked m)
  | RunOutcome.err e =>
      (p, [], RunOutcome.err (ControlEveningLightsProgramError.NoSunTimesData e))
  | RunOutcome.ok sunset =>
    if ¬ evInA p sunset env.now ∧ ¬ evInB p sunset env.now then
      (if p.history.isSome then { p with history := none } else p, [],
        RunOutcome.ok ())
    else
      match env.currentBulb with
      | Except.error e =>
          (p, [],
            RunOutcome.err
              (ControlEveningLightsProgramError.HomebridgeInteraction e))
      | Except.ok current_bulb =>
        if current_bulb.is_off && p.history.isSome then (p, [], RunOutcome.ok ())
        else
          match p.history with
          | some history =>
            if current_bulb.brightness ≠ history.brightness then
              (p, [], RunOutcome.ok ())
            else if history.when.minuteOfHour = env.now.minuteOfHour then
              (p, [], RunOutcome.ok ())
            else p.act env sunset current_bulb
          | none => p.act env sunset current_bulb

/-- Apply issued commands to a bulb: an `On` write sets the on flag, a
brightness write sets the brightness.  This is the "only the program
writes the bulb" device model used for the cross-tick ramp claims. -/
def applyCmds (bulb : HBLightbulbValues) : List EveningCmd → HBLightbulbValues
  | [] => bulb
  | EveningCmd.turnOn :: rest => applyCmds { bulb with On := 1 } rest
  | EveningCmd.setBrightness v :: rest => applyCmds { bulb with brightness := v } rest

/-- The environment of one closed-loop tick: a static sunset, the device
read back exactly as tracked, and every bridge write succeeding. -/
def closedEnv (s0 : LocalDT) (bulb : HBLightbulbValues) (now : LocalDT) : EveningEnv :=
  { now := now
    sunset := RunOutcome.ok s0
    currentBulb := Except.ok bulb
    bedLightOffCheck := Except.ok bulb.is_off
    turnOnResult := Except.ok ()
    setBrightnessResult := Except.ok () }

/-- The brightness values among a tick's commands. -/
def writesOf (cmds : List EveningCmd) : List Nat :=
  cmds.filterMap (fun c =>
    match c with
    | EveningCmd.setBrightness v => some v
    | EveningCmd.turnOn => none)

/-- All brightness values the evening program writes over a sequence of
closed-loop ticks at instants `ts`, threading program state and device
state tick to tick. -/
def eveningWrites (p : ControlEveningLightsProgram) (bulb : HBLightbulbValues)
    (s0 : LocalDT) : List LocalDT → List Nat
  | [] => []
  | t :: ts =>
    let r := p.run (closedEnv s0 bulb t)
    writesOf r.2.1 ++ eveningWrites r.1 (applyCmds bulb r.2.1) s0 ts

/-- Two instants denote the same clock minute: same local calendar day and
same minute-of-day. -/
def sameClockMinute (a b : LocalDT) : Prop :=
  a.day = b.day ∧ a.tod / 60 = b.tod / 60

instance (a b : LocalDT) : Decidable (sameClockMinute a b) := by
  unfold sameClockMinute; infer_instance

/-! ## Claims about `src/suntimes.rs` -/

/-- C1: the spec requires that a failed external sunrise/sunset call or an
unparseable payload yield the typed `SolarDataUnavailable`-style error and
never abort the process.  The code does the opposite on both of those
paths: a connection failure hits `panic!` (suntimes.rs:57) and a payload
that does not deserialize hits `.unwrap()` (suntimes.rs:54).  This theorem
evaluates the embedded query at those two failing inputs and shows the
outcome is the abort, not a typed error. -/
theorem suntimes_failed_call_panics :
    (SunTimes.sunriseQuery ⟨0, 0, none, none⟩
        { today := 0, fetch := FetchResult.connError "connection refused" }).2
      = RunOutcome.panicked "connection refused" ∧
    (SunTimes.sunriseQuery ⟨0, 0, none, none⟩
        { today := 0, fetch := FetchResult.badBody "error decoding response body" }).2
      = RunOutcome.panicked "error decoding response body" ∧
    (SunTimes.sunsetQuery ⟨0, 0, none, none⟩
        { today := 0, fetch := FetchResult.connError "connection refused" }).2
      = RunOutcome.panicked "connection refused" := by
  exact ⟨rfl, rfl, rfl⟩

/-- C8: the `SunTimes` cache invariant.  A cached sunrise or sunset is
returned (with no refresh and the state untouched) exactly when its local
calendar date equals today's; a stale or absent cache routes the query
through the collector first, so the query's final cache is the collector's;
and the collector either populates both fields together from the one
external response or (on any failure, the two abort paths included) leaves
both exactly as they were — the cache is never partially fresh. -/
theorem suntimes_cache_invariant :
    (∀ (st : SunTimes) (env : SuntimesEnv) (sr : LocalDT),
      st.sunrise = some sr → sr.day = env.today →
        st.sunriseQuery env = (st, RunOutcome.ok sr)) ∧
    (∀ (st : SunTimes) (env : SuntimesEnv) (ss : LocalDT),
      st.sunset = some ss → ss.day = env.today →
        st.sunsetQuery env = (st, RunOutcome.ok ss)) ∧
    (∀ (st : SunTimes) (env : SuntimesEnv),
      (∀ sr, st.sunrise = some sr → sr.day ≠ env.today) →
        (st.sunriseQuery env).1 = (st.collect_sunrise_sunset_data env).1) ∧
    (∀ (st : SunTimes) (env : SuntimesEnv),
      (∀ ss, st.sunset = some ss → ss.day ≠ env.today) →
        (st.sunsetQuery env).1 = (st.collect_sunrise_sunset_data env).1) ∧
    (∀ (st : SunTimes) (env : SuntimesEnv),
      (∃ a b, env.fetch = FetchResult.gotTimes (Except.ok a) (Except.ok b) ∧
          st.collect_sunrise_sunset_data env =
            ({ st with sunrise := some a, sunset := some b }, RunOutcome.ok ())) ∨
        ((st.collect_sunrise_sunset_data env).1 = st ∧
          (st.collect_sunrise_sunset_data env).2 ≠ RunOutcome.ok ())) := by
  refine ⟨?_, ?_, ?_, ?_, ?_⟩
  · intro st env sr hsr hday
    unfold SunTimes.sunriseQuery
    rw [hsr]
    simp [hday]
  · intro st env ss hss hday
    unfold SunTimes.sunsetQuery
    rw [hss]
    simp [hday]
  · intro st env hstale
    unfold SunTimes.sunriseQuery
    cases hsr : st.sunrise with
    | none =>
      unfold SunTimes.sunriseRefresh
      rcases hc : st.collect_sunrise_sunset_data env with ⟨st', r⟩
      cases r <;> simp <;> cases hsr' : st'.sunrise <;> simp
    | some sr =>
      dsimp only
      rw [if_neg (hstale sr hsr)]
      unfold SunTimes.sunriseRefresh
      rcases hc : st.collect_sunrise_sunset_data env with ⟨st', r⟩
      cases r <;> simp <;> cases hsr' : st'.sunrise <;> simp
  · intro st env hstale
    unfold SunTimes.sunsetQuery
    cases hss : st.sunset with
    | none =>
      unfold SunTimes.sunsetRefresh
      rcases hc : st.collect_sunrise_sunset_data env with ⟨st', r⟩
      cases r <;> simp <;> cases hss' : st'.sunset <;> simp
    | some ss =>
      dsimp only
      rw [if_neg (hstale ss hss)]
      unfold SunTimes.sunsetRefresh
      rcases hc : st.collect_sunrise_sunset_data env with ⟨st', r⟩
      cases r <;> simp <;> cases hss' : st'.sunset <;> simp
  · intro st env
    unfold SunTimes.collect_sunrise_sunset_data
    cases hf : env.fetch with
    | connError m => right; exact ⟨rfl, by simp⟩
    | badBody m => right; exact ⟨rfl, by simp⟩
    | gotTimes a b =>
      cases a with
      | error e => right; exact ⟨rfl, by simp⟩
      | ok av =>
        cases b with
        | error e => right; exact ⟨rfl, by simp⟩
        | ok bv => left; exact ⟨av, bv, rfl, rfl⟩

/-- Witness for the cache-invariant theorem: a cache fresh for day 5 is
returned unchanged. -/
theorem suntimes_cache_invariant_witness :
    SunTimes.sunriseQuery ⟨0, 0, some ⟨5, 25200⟩, some ⟨5, 68400⟩⟩
        { today := 5, fetch := FetchResult.connError "unreachable" }
      = (⟨0, 0, some ⟨5, 25200⟩, some ⟨5, 68400⟩⟩, RunOutcome.ok ⟨5, 25200⟩) :=
  suntimes_cache_invariant.1 ⟨0, 0, some ⟨5, 25200⟩, some ⟨5, 68400⟩⟩
    { today := 5, fetch := FetchResult.connError "unreachable" } ⟨5, 25200⟩ rfl rfl

/-! ## Claims about `src/homebridge.rs` -/

/-- The login exchange either succeeds with a CREATED status and a parsed
body — overwriting token and expiry together — or fails, leaving the whole
session record exactly as it was. -/
theorem renew_access_token_cases (hb : Homebridge) (env : LoginEnv) :
    (∃ auth, env.login = LoginResult.status 201 (Except.ok auth) ∧
      hb.renew_access_token env =
        ({ hb with
            access_token := some auth.access_token,
            access_token_expiration :=
              some (env.now + (auth.expires_in : Int) - 60) },
          Except.ok ())) ∨
    (∃ e, hb.renew_access_token env = (hb, Except.error e)) := by
  unfold Homebridge.renew_access_token
  cases hl : env.login with
  | connError m => right; exact ⟨HBError.UnableToConnect m, rfl⟩
  | status code body =>
    by_cases hcode : code = 201
    · subst hcode
      cases body with
      | error e =>
        right
        exact ⟨HBError.ParsingError ("Error parsing HBAuth data - " ++ e), by simp⟩
      | ok auth => left; exact ⟨auth, rfl, by simp⟩
    · right
      exact ⟨HBError.AuthError "Status code not CREATED", by simp [hcode]⟩

/-- When the cache forces a renewal and the renewal fails, `access_token`
reports that failure after the single exchange. -/
theorem accessToken_renew_err (hb : Homebridge) (env : LoginEnv)
    (hb' : Homebridge) (e : HBError)
    (hcond : hb.access_token = none ∨ hb.access_token_expiration = none ∨
      ∃ exp, hb.access_token_expiration = some exp ∧ exp < env.now)
    (hr : hb.renew_access_token env = (hb', Except.error e)) :
    hb.accessToken env = (hb', 1, Except.error e) := by
  unfold Homebridge.accessToken
  rcases htok : hb.access_token with _ | tok
  · simp [htok, hr]
  · rcases hexp : hb.access_token_expiration with _ | exp
    · simp [htok, hexp, hr]
    · have hlt : exp < env.now := by
        rcases hcond with h | h | ⟨exp', hexp', hlt'⟩
        · rw [htok] at h; cases h
        · rw [hexp] at h; cases h
        · rw [hexp] at hexp'; cases hexp'; exact hlt'
      simp [htok, hexp, hr, hlt]

/-- When the cache forces a renewal and the renewal succeeds, storing a
token, `access_token` hands back the renewed session and that token after
the single exchange. -/
theorem accessToken_renew_ok (hb : Homebridge) (env : LoginEnv)
    (hb' : Homebridge) (t : String)
    (hcond : hb.access_token = none ∨ hb.access_token_expiration = none ∨
      ∃ exp, hb.access_token_expiration = some exp ∧ exp < env.now)
    (hr : hb.renew_access_token env = (hb', Except.ok ()))
    (ht : hb'.access_token = some t) :
    hb.accessToken env = (hb', 1, Except.ok t) := by
  unfold Homebridge.accessToken
  rcases htok : hb.access_token with _ | tok
  · simp [htok, hr, ht]
  · rcases hexp : hb.access_token_expiration with _ | exp
    · simp [htok, hexp, hr, ht]
    · have hlt : exp < env.now := by
        rcases hcond with h | h | ⟨exp', hexp', hlt'⟩
        · rw [htok] at h; cases h
        · rw [hexp] at h; cases h
        · rw [hexp] at hexp'; cases hexp'; exact hlt'
      simp [htok, hexp, hr, hlt, ht]

/-- C7: `Homebridge::access_token` returns the cached token with the
session untouched and no login exchange when a token and a non-past expiry
are both present; in every other case it performs exactly one login
exchange, which on success overwrites token and expiry together with
`expiry = now + expires_in - 60` seconds, and on each failure mode
(transport error, non-CREATED status, unparseable body) returns the typed
error with both stored fields untouched. -/
theorem access_token_cache_discipline (hb : Homebridge) (env : LoginEnv) :
    (∀ tok exp, hb.access_token = some tok →
      hb.access_token_expiration = some exp → ¬ exp < env.now →
        hb.accessToken env = (hb, 0, Except.ok tok)) ∧
    ((hb.access_token = none ∨ hb.access_token_expiration = none ∨
        (∃ exp, hb.access_token_expiration = some exp ∧ exp < env.now)) →
      (hb.accessToken env).2.1 = 1 ∧
      (∀ auth, env.login = LoginResult.status 201 (Except.ok auth) →
        hb.accessToken env =
          ({ hb with
              access_token := some auth.access_token,
              access_token_expiration :=
                some (env.now + (auth.expires_in : Int) - 60) },
            1, Except.ok auth.access_token)) ∧
      (∀ m, env.login = LoginResult.connError m →
        hb.accessToken env = (hb, 1, Except.error (HBError.UnableToConnect m))) ∧
      (∀ code body, env.login = LoginResult.status code body → code ≠ 201 →
        hb.accessToken env =
          (hb, 1, Except.error (HBError.AuthError "Status code not CREATED"))) ∧
      (∀ e, env.login = LoginResult.status 201 (Except.error e) →
        hb.accessToken env =
          (hb, 1, Except.error (HBError.ParsingError
            ("Error parsing HBAuth data - " ++ e))))) := by
  constructor
  · intro tok exp htok hexp hfresh
    unfold Homebridge.accessToken
    rw [htok, hexp]
    simp [hfresh, htok]
  · intro hcond
    refine ⟨?_, ?_, ?_, ?_, ?_⟩
    · rcases renew_access_token_cases hb env with ⟨auth, _, hr⟩ | ⟨e, hr⟩
      · rw [accessToken_renew_ok hb env _ auth.access_token hcond hr rfl]
      · rw [accessToken_renew_err hb env _ e hcond hr]
    · intro auth hl
      have hr : hb.renew_access_token env =
          ({ hb with
              access_token := some auth.access_token,
              access_token_expiration :=
                some (env.now + (auth.expires_in : Int) - 60) },
            Except.ok ()) := by
        unfold Homebridge.renew_access_token
        rw [hl]
        simp
      exact accessToken_renew_ok hb env _ auth.access_token hcond hr rfl
    · intro m hl
      have hr : hb.renew_access_token env =
          (hb, Except.error (HBError.UnableToConnect m)) := by
        unfold Homebridge.renew_access_token
        rw [hl]
      exact accessToken_renew_err hb env hb _ hcond hr
    · intro code body hl hcode
      have hr : hb.renew_access_token env =
          (hb, Except.error (HBError.AuthError "Status code not CREATED")) := by
        unfold Homebridge.renew_access_token
        rw [hl]
        simp [hcode]
      exact accessToken_renew_err hb env hb _ hcond hr
    · intro e hl
      have hr : hb.renew_access_token env =
          (hb, Except.error (HBError.ParsingError
            ("Error parsing HBAuth data - " ++ e))) := by
        unfold Homebridge.renew_access_token
        rw [hl]
        simp
      exact accessToken_renew_err hb env hb _ hcond hr

/-- Witness for the token-cache theorem: a session holding token "t" that
expires at instant 1000 serves a call at instant 900 from the cache. -/
theorem access_token_cache_discipline_witness :
    Homebridge.accessToken
        { ip_address := "http://hb", username := "u", password := "p",
          access_token := some "t", access_token_expiration := some 1000,
          accessory_uuids := [] }
        { now := 900, login := LoginResult.connError "unreachable" }
      = ({ ip_address := "http://hb", username := "u", password := "p",
            access_token := some "t", access_token_expiration := some 1000,
            accessory_uuids := [] },
          0, Except.ok "t") :=
  (access_token_cache_discipline _ _).1 "t" 1000 rfl rfl (by decide)

/-- C10 counterexample: with the `On` write and the `Brightness` write both
failing, `set_bedlight` attempts only the first write and reports only the
first failure — the `?` after each call aborts the sequence at the first
error, so the five failures are not independently reported. -/
theorem set_bedlight_first_failure_aborts :
    (Homebridge.set_bedlight ⟨1, 50, 140, 0, 0⟩
        { onRes := Except.error (HBError.UnableToConnect "refused"),
          brightnessRes := Except.error (HBError.ParsingError "bad body"),
          colorTemperatureRes := Except.ok (),
          hueRes := Except.ok (),
          saturationRes := Except.ok () }).1.length = 1 ∧
    (Homebridge.set_bedlight ⟨1, 50, 140, 0, 0⟩
        { onRes := Except.error (HBError.UnableToConnect "refused"),
          brightnessRes := Except.error (HBError.ParsingError "bad body"),
          colorTemperatureRes := Except.ok (),
          hueRes := Except.ok (),
          saturationRes := Except.ok () }).2
      = Except.error (HBError.UnableToConnect "refused") := by
  exact ⟨rfl, rfl⟩

/-- C10 as amended: `set_bedlight` issues its characteristic writes in the
order On, Brightness, ColorTemperature, Hue, Saturation and is not
transactional — when all five results are ok it issues all five writes,
and when the overall result is an error that error is the first failing
write's, the writes actually issued are exactly the prefix of the sequence
up to and including that first failure (the earlier writes stay applied;
the later ones are never attempted). -/
theorem set_bedlight_sequence (values : HBLightbulbValues) (env : SetBedlightEnv)  :
    ((∀ r ∈ env.results, r = Except.ok ()) →
      Homebridge.set_bedlight values env = (fiveWrites values, Except.ok ())) ∧
    (∀ e, (Homebridge.set_bedlight values env).2 = Except.error e →
      ∃ k, k < 5 ∧ env.results.get? k = some (Except.error e) ∧
        (∀ j, j < k → env.results.get? j = some (Except.ok ())) ∧
        (Homebridge.set_bedlight values env).1 = (fiveWrites values).take (k + 1)) := by
  unfold Homebridge.set_bedlight
  rcases h0 : env.onRes with e0 | u0
  · refine ⟨?_, ?_⟩
    · intro hall
      have := hall env.onRes (by simp [SetBedlightEnv.results])
      rw [h0] at this; cases this
    · intro e he
      cases he
      exact ⟨0, by omega, by simp [SetBedlightEnv.results, h0], by omega,
        by simp [fiveWrites]⟩
  · rcases h1 : env.brightnessRes with e1 | u1
    · refine ⟨?_, ?_⟩
      · intro hall
        have := hall env.brightnessRes (by simp [SetBedlightEnv.results])
        rw [h1] at this; cases this
      · intro e he
        cases he
        refine ⟨1, by omega, by simp [SetBedlightEnv.results, h1], ?_,
          by simp [fiveWrites]⟩
        intro j hj
        interval_cases j
        simp [SetBedlightEnv.results, h0]
    · rcases h2 : env.colorTemperatureRes with e2 | u2
      · refine ⟨?_, ?_⟩
        · intro hall
          have := hall env.colorTemperatureRes (by simp [SetBedlightEnv.results])
          rw [h2] at this; cases this
        · intro e he
          cases he
          refine ⟨2, by omega, by simp [SetBedlightEnv.results, h2], ?_,
            by simp [fiveWrites]⟩
          intro j hj
          interval_cases j <;> simp [SetBedlightEnv.results, h0, h1]
      · rcases h3 : env.hueRes with e3 | u3
        · refine ⟨?_, ?_⟩
          · intro hall
            have := hall env.hueRes (by simp [SetBedlightEnv.results])
            rw [h3] at this; cases this
          · intro e he
            cases he
            refine ⟨3, by omega, by simp [SetBedlightEnv.results, h3], ?_,
              by simp [fiveWrites]⟩
            intro j hj
            interval_cases j <;> simp [SetBedlightEnv.results, h0, h1, h2]
        · rcases h4 : env.saturationRes with e4 | u4
          · refine ⟨?_, ?_⟩
            · intro hall
              have := hall env.saturationRes (by simp [SetBedlightEnv.results])
              rw [h4] at this; cases this
            · intro e he
              cases he
              refine ⟨4, by omega, by simp [SetBedlightEnv.results, h4], ?_,
                by simp [fiveWrites]⟩
              intro j hj
              interval_cases j <;> simp [SetBedlightEnv.results, h0, h1, h2, h3]
          · refine ⟨?_, ?_⟩
            · intro _
              simp [fiveWrites]
            · intro e he
              cases he

/-- Witness for the amended write-sequence theorem: all five writes succeed
and are issued in order. -/
theorem set_bedlight_sequence_witness :
    Homebridge.set_bedlight ⟨1, 50, 140, 0, 0⟩
        { onRes := Except.ok (), brightnessRes := Except.ok (),
          colorTemperatureRes := Except.ok (), hueRes := Except.ok (),
          saturationRes := Except.ok () }
      = (fiveWrites ⟨1, 50, 140, 0, 0⟩, Except.ok ()) :=
  (set_bedlight_sequence ⟨1, 50, 140, 0, 0⟩
      { onRes := Except.ok (), brightnessRes := Except.ok (),
        colorTemperatureRes := Except.ok (), hueRes := Except.ok (),
        saturationRes := Except.ok () }).1 (by decide)

/-! ## Claims about `src/programs/turn_morning_lights_off.rs` -/

/-- C9 counterexample: constructing the morning program from a
configuration with neither `off_time` nor `after_sunrise` set succeeds —
the source only logs a warning there (turn_morning_lights_off.rs:36-37),
so `new` returns a program value, not an error. -/
theorem morning_new_accepts_neither_time :
    TurnMorningLightsOffProgram.new
        { active := true, duration := 5, off_time := none,
          after_sunrise := none, last_call_after_scheduled_off := 30 }
      = Except.ok
          { duration := 5, off_time := none, after_sunrise := none,
            active := true, last_call_after_scheduled_off := 30,
            last_turned_light_off := none } := by
  exact rfl

/-- C9 as amended: with neither time configured, construction still
succeeds (a warning is merely logged), and the configuration error
surfaces instead on every tick: an active, not-yet-fired program built
from such a configuration returns the defensive `ConfigError` at run time
and issues no command. -/
theorem morning_new_neither_time_defers_error
    (config : TurningMorningLightsOffConfig)
    (hot : config.off_time = none) (has : config.after_sunrise = none) :
    ∃ p, TurnMorningLightsOffProgram.new config = Except.ok p ∧
      p.off_time = none ∧ p.after_sunrise = none ∧
      ∀ env : MorningEnv, p.active = true → p.firedToday env.now = false →
        p.run env =
          (p, [], RunOutcome.err (TurnMorningLightsOffProgramError.ConfigError
            "Both off-times are None.")) := by
  refine ⟨⟨config.duration, none, none, config.active,
    config.last_call_after_scheduled_off, none⟩, ?_, rfl, rfl, ?_⟩
  · unfold TurnMorningLightsOffProgram.new
    rw [hot, has]
  · intro env hact hfired
    have hact' : config.active = true := hact
    unfold TurnMorningLightsOffProgram.run
    rw [if_neg (by simp [hact']), hfired]
    simp [TurnMorningLightsOffProgram.offTimeFor]

/-- Witness for the amended construction theorem at a concrete
configuration and tick. -/
theorem morning_new_neither_time_defers_error_witness :
    ∃ p, TurnMorningLightsOffProgram.new
        { active := true, duration := 5, off_time := none,
          after_sunrise := none, last_call_after_scheduled_off := 30 }
      = Except.ok p ∧
      p.off_time = none ∧ p.after_sunrise = none ∧
      ∀ env : MorningEnv, p.active = true → p.firedToday env.now = false →
        p.run env =
          (p, [], RunOutcome.err (TurnMorningLightsOffProgramError.ConfigError
            "Both off-times are None.")) :=
  morning_new_neither_time_defers_error
    { active := true, duration := 5, off_time := none,
      after_sunrise := none, last_call_after_scheduled_off := 30 } rfl rfl

/-- C3: on a single tick of an active, not-yet-fired-today morning program
whose effective off-time `ot` resolved (with the last-call window not
wrapping past midnight), the off command is issued exactly once when
`now.time()` lies in `[ot, ot + last_call_window]`, and no command is
issued when it lies outside — in the source the command does not depend on
the device's prior state at all, so "device reads on" is subsumed. -/
theorem morning_window_fires_exactly_once (p : TurnMorningLightsOffProgram)
    (env : MorningEnv) (ot : Int)
    (hact : p.active = true)
    (hidle : p.firedToday env.now = false)
    (hot : p.offTimeFor env = RunOutcome.ok ot)
    (hot0 : 0 ≤ ot)
    (hnowrap : ot + (p.last_call_after_scheduled_off : Int) * 60 < 86400) :
    ((ot ≤ env.now.tod ∧
        env.now.tod ≤ ot + (p.last_call_after_scheduled_off : Int) * 60) →
      (p.run env).2.1 = [MorningCmd.turnOff]) ∧
    (¬ (ot ≤ env.now.tod ∧
        env.now.tod ≤ ot + (p.last_call_after_scheduled_off : Int) * 60) →
      (p.run env).2.1 = []) := by
  have hclock : addClock ot ((p.last_call_after_scheduled_off : Int) * 60)
      = ot + (p.last_call_after_scheduled_off : Int) * 60 := by
    unfold addClock
    apply Int.emod_eq_of_lt
    · positivity
    · exact hnowrap
  constructor
  · intro hin
    unfold TurnMorningLightsOffProgram.run
    rw [if_neg (by simp [hact]), if_neg (by simp [hidle]), hot]
    dsimp only
    rw [hclock, if_neg (by omega), if_neg (by omega)]
    rcases env.turnOffResult with e | u
    · rfl
    · rcases env.bedLightIsOff with e | b
      · rfl
      · cases b <;> rfl
  · intro hout
    unfold TurnMorningLightsOffProgram.run
    rw [if_neg (by simp [hact]), if_neg (by simp [hidle]), hot]
    dsimp only
    rw [hclock]
    by_cases hlt : env.now.tod < ot
    · rw [if_pos hlt]
    · rw [if_neg hlt, if_pos (by omega)]

/-- Witness for the window theorem: off-time 06:30:00 (23400s), last-call
window 30 minutes, a tick at 06:31:00 (23460s) issues the one command. -/
theorem morning_window_fires_exactly_once_witness :
    (TurnMorningLightsOffProgram.run
        { duration := 5, off_time := some 23400, after_sunrise := none,
          active := true, last_call_after_scheduled_off := 30,
          last_turned_light_off := none }
        { now := ⟨738000, 23460⟩, sunrise := RunOutcome.ok ⟨738000, 21600⟩,
          turnOffResult := Except.ok (),
          bedLightIsOff := Except.ok true }).2.1 = [MorningCmd.turnOff] :=
  (morning_window_fires_exactly_once
      { duration := 5, off_time := some 23400, after_sunrise := none,
        active := true, last_call_after_scheduled_off := 30,
        last_turned_light_off := none }
      { now := ⟨738000, 23460⟩, sunrise := RunOutcome.ok ⟨738000, 21600⟩,
        turnOffResult := Except.ok (),
        bedLightIsOff := Except.ok true }
      23400 rfl rfl rfl (by decide) (by decide)).1 (by decide)

/-- A tick that finds `last_turned_light_off` set to the tick's own date
does nothing at all: no command, no state change, success result. -/
theorem morning_run_fired (p : TurnMorningLightsOffProgram) (env : MorningEnv)
    (h : p.firedToday env.now = true) :
    p.run env = (p, [], RunOutcome.ok ()) := by
  unfold TurnMorningLightsOffProgram.run
  by_cases ha : p.active = false
  · rw [if_pos ha]
  · rw [if_neg ha, if_pos h]

/-- In the firing window, `run` reduces to the write-then-verify tail. -/
theorem morning_run_fire_eq (p : TurnMorningLightsOffProgram)
    (env : MorningEnv) (ot : Int)
    (ha : ¬ p.active = false) (hf : ¬ p.firedToday env.now = true)
    (hot : p.offTimeFor env = RunOutcome.ok ot)
    (h1 : ¬ env.now.tod < ot)
    (h2 : ¬ addClock ot ((p.last_call_after_scheduled_off : Int) * 60)
      < env.now.tod) :
    p.run env =
      (match env.turnOffResult with
        | Except.error e =>
            (p, [MorningCmd.turnOff],
              RunOutcome.err
                (TurnMorningLightsOffProgramError.HomebridgeInteraction e))
        | Except.ok _ =>
          match env.bedLightIsOff with
          | Except.error e =>
              (p, [MorningCmd.turnOff],
                RunOutcome.err
                  (TurnMorningLightsOffProgramError.HomebridgeInteraction e))
          | Except.ok true =>
              ({ p with last_turned_light_off := some env.now },
                [MorningCmd.turnOff], RunOutcome.ok ())
          | Except.ok false => (p, [MorningCmd.turnOff], RunOutcome.ok ())) := by
  unfold TurnMorningLightsOffProgram.run
  rw [if_neg ha, if_neg hf, hot]
  dsimp only
  rw [if_neg h1, if_neg h2]

/-- Every tick either leaves the program state untouched (and is not a
successful off-command), or is a successful off-command and records the
tick's instant in `last_turned_light_off`. -/
theorem morning_run_cases (p : TurnMorningLightsOffProgram) (env : MorningEnv) :
    ((p.run env).1 = p ∧ ¬ morningSuccess p env) ∨
    ((p.run env).1 = { p with last_turned_light_off := some env.now } ∧
      morningSuccess p env) := by
  by_cases ha : p.active = false
  · have hrun : p.run env = (p, [], RunOutcome.ok ()) := by
      unfold TurnMorningLightsOffProgram.run
      rw [if_pos ha]
    left
    refine ⟨by rw [hrun], ?_⟩
    intro hs
    exact hs.1 (by rw [hrun])
  · by_cases hf : p.firedToday env.now = true
    · have hrun := morning_run_fired p env hf
      left
      refine ⟨by rw [hrun], ?_⟩
      intro hs
      exact hs.1 (by rw [hrun])
    · cases hot : p.offTimeFor env with
      | panicked m =>
        have hrun : p.run env = (p, [], RunOutcome.panicked m) := by
          unfold TurnMorningLightsOffProgram.run
          rw [if_neg ha, if_neg hf, hot]
        left
        refine ⟨by rw [hrun], ?_⟩
        intro hs
        exact hs.1 (by rw [hrun])
      | err e =>
        have hrun : p.run env = (p, [], RunOutcome.err e) := by
          unfold TurnMorningLightsOffProgram.run
          rw [if_neg ha, if_neg hf, hot]
        left
        refine ⟨by rw [hrun], ?_⟩
        intro hs
        exact hs.1 (by rw [hrun])
      | ok ot =>
        by_cases h1 : env.now.tod < ot
        · have hrun : p.run env = (p, [], RunOutcome.ok ()) := by
            unfold TurnMorningLightsOffProgram.run
            rw [if_neg ha, if_neg hf, hot]
            dsimp only
            rw [if_pos h1]
          left
          refine ⟨by rw [hrun], ?_⟩
          intro hs
          exact hs.1 (by rw [hrun])
        · by_cases h2 : addClock ot ((p.last_call_after_scheduled_off : Int) * 60)
              < env.now.tod
          · have hrun : p.run env = (p, [], RunOutcome.ok ()) := by
              unfold TurnMorningLightsOffProgram.run
              rw [if_neg ha, if_neg hf, hot]
              dsimp only
              rw [if_neg h1, if_pos h2]
            left
            refine ⟨by rw [hrun], ?_⟩
            intro hs
            exact hs.1 (by rw [hrun])
          · have heq := morning_run_fire_eq p env ot ha hf hot h1 h2
            cases hto : env.turnOffResult with
            | error e =>
              rw [hto] at heq
              left
              refine ⟨by rw [heq], ?_⟩
              intro hs
              have h' := hs.2.1
              rw [hto] at h'
              cases h' 
            | ok u =>
              cases u
              rw [hto] at heq
              cases hbo : env.bedLightIsOff with
              | error e =>
                rw [hbo] at heq
                left
                refine ⟨by rw [heq], ?_⟩
                intro hs
                have h' := hs.2.2
                rw [hbo] at h'
                cases h' 
              | ok b =>
                cases b
                · rw [hbo] at heq
                  left
                  refine ⟨by rw [heq], ?_⟩
                  intro hs
                  have h' := hs.2.2
                  rw [hbo] at h'
                  simp at h' 
                · rw [hbo] at heq
                  right
                  refine ⟨by rw [heq], ?_, hto, hbo⟩
                  rw [heq]
                  simp

/-- An unsuccessful tick leaves the program state exactly as it was. -/
theorem morning_fail_state (p : TurnMorningLightsOffProgram) (env : MorningEnv)
    (h : ¬ morningSuccess p env) : (p.run env).1 = p := by
  rcases morning_run_cases p env with ⟨hs, _⟩ | ⟨_, hs⟩
  · exact hs
  · exact absurd hs h

/-- A successful tick records the tick's instant. -/
theorem morning_success_state (p : TurnMorningLightsOffProgram)
    (env : MorningEnv) (h : morningSuccess p env) :
    (p.run env).1 = { p with last_turned_light_off := some env.now } := by
  rcases morning_run_cases p env with ⟨_, hn⟩ | ⟨hs, _⟩
  · exact absurd h hn
  · exact hs

/-- Once `last_turned_light_off` carries date `d`, a sequence of ticks all
dated `d` contains no further successful off-command. -/
theorem morning_count_zero_after_fired (p : TurnMorningLightsOffProgram)
    (d : Int) (es : List MorningEnv)
    (ht : ∃ t, p.last_turned_light_off = some t ∧ t.day = d)
    (hd : ∀ e ∈ es, e.now.day = d) :
    morningSuccessCount p es = 0 := by
  induction es generalizing p with
  | nil => rfl
  | cons e es ih =>
    obtain ⟨t, hlt, htd⟩ := ht
    have hfired : p.firedToday e.now = true := by
      unfold TurnMorningLightsOffProgram.firedToday
      rw [hlt]
      dsimp only
      rw [htd, hd e (List.mem_cons_self e es)]
      simp
    have hrun := morning_run_fired p e hfired
    have hns : ¬ morningSuccess p e := fun hs => hs.1 (by rw [hrun])
    unfold morningSuccessCount
    rw [if_neg hns, morning_fail_state p e hns, Nat.zero_add]
    exact ih p ⟨t, hlt, htd⟩ (fun e' he' => hd e' (List.mem_cons_of_mem _ he'))

/-- Over any sequence of ticks sharing one calendar date, at most one tick
is a successful off-command. -/
theorem morning_count_le_one (p : TurnMorningLightsOffProgram) (d : Int)
    (es : List MorningEnv) (hd : ∀ e ∈ es, e.now.day = d) :
    morningSuccessCount p es ≤ 1 := by
  induction es generalizing p with
  | nil => exact Nat.zero_le 1
  | cons e es ih =>
    by_cases hs : morningSuccess p e
    · unfold morningSuccessCount
      rw [if_pos hs, morning_success_state p e hs]
      have hzero : morningSuccessCount
          { p with last_turned_light_off := some e.now } es = 0 :=
        morning_count_zero_after_fired _ d es
          ⟨e.now, rfl, hd e (List.mem_cons_self e es)⟩
          (fun e' he' => hd e' (List.mem_cons_of_mem _ he'))
      rw [hzero]
    · unfold morningSuccessCount
      rw [if_neg hs, morning_fail_state p e hs]
      have := ih p (fun e' he' => hd e' (List.mem_cons_of_mem _ he'))
      omega

/-- C2: over every sequence of ticks on one calendar date, the morning
program issues at most one successful off-command; once a tick's
post-write read confirms the light off and the date is recorded, every
later tick on that date issues zero commands and leaves the state alone;
and `last_turned_light_off` is recorded exactly by the successful ticks —
an unconfirmed tick leaves the state unchanged so the next tick retries. -/
theorem morning_once_per_day (p : TurnMorningLightsOffProgram) (d : Int)
    (es : List MorningEnv) (hd : ∀ e ∈ es, e.now.day = d) :
    morningSuccessCount p es ≤ 1 ∧
    (∀ env : MorningEnv, p.firedToday env.now = true →
      p.run env = (p, [], RunOutcome.ok ())) ∧
    (∀ env : MorningEnv,
      (morningSuccess p env →
        (p.run env).1 = { p with last_turned_light_off := some env.now }) ∧
      (¬ morningSuccess p env → (p.run env).1 = p)) :=
  ⟨morning_count_le_one p d es hd,
    fun env h => morning_run_fired p env h,
    fun env => ⟨morning_success_state p env, morning_fail_state p env⟩⟩

/-- Witness for the once-per-day theorem: two ticks at 06:31 and 06:45 on
day 738000, the first confirming the off-write, give at most one
successful command. -/
theorem morning_once_per_day_witness :
    morningSuccessCount
        { duration := 5, off_time := some 23400, after_sunrise := none,
          active := true, last_call_after_scheduled_off := 30,
          last_turned_light_off := none }
        [{ now := ⟨738000, 23460⟩, sunrise := RunOutcome.ok ⟨738000, 21600⟩,
            turnOffResult := Except.ok (), bedLightIsOff := Except.ok true },
          { now := ⟨738000, 24300⟩, sunrise := RunOutcome.ok ⟨738000, 21600⟩,
            turnOffResult := Except.ok (), bedLightIsOff := Except.ok true }]
      ≤ 1 :=
  (morning_once_per_day
      { duration := 5, off_time := some 23400, after_sunrise := none,
        active := true, last_call_after_scheduled_off := 30,
        last_turned_light_off := none }
      738000
      [{ now := ⟨738000, 23460⟩, sunrise := RunOutcome.ok ⟨738000, 21600⟩,
          turnOffResult := Except.ok (), bedLightIsOff := Except.ok true },
        { now := ⟨738000, 24300⟩, sunrise := RunOutcome.ok ⟨738000, 21600⟩,
          turnOffResult := Except.ok (), bedLightIsOff := Except.ok true }]
      (by decide)).1

/-! ## Claims about `src/programs/control_evening_lights.rs` -/

/-- C4: inside the active window with history present, a tick that finds
the device off, or finds its brightness different from the recorded
history brightness, performs no write and leaves the whole program state —
history included — untouched. -/
theorem evening_cedes_to_external_control (p : ControlEveningLightsProgram)
    (env : EveningEnv) (s0 : LocalDT) (bulb : HBLightbulbValues)
    (h : LightsHistory)
    (hs : env.sunset = RunOutcome.ok s0)
    (hw : evInA p s0 env.now ∨ evInB p s0 env.now)
    (hb : env.currentBulb = Except.ok bulb)
    (hh : p.history = some h)
    (hcede : bulb.is_off = true ∨ bulb.brightness ≠ h.brightness) :
    p.run env = (p, [], RunOutcome.ok ()) := by
  unfold ControlEveningLightsProgram.run
  rw [hs]
  dsimp only
  rw [if_neg (by tauto), hb]
  dsimp only
  rcases hoff : bulb.is_off with _ | _
  · have hbr : bulb.brightness ≠ h.brightness := by
      rcases hcede with hc | hc
      · rw [hoff] at hc; cases hc
      · exact hc
    rw [hh]
    simp [hoff, hbr]
  · rw [hh]
    simp [hoff]

/-- Witness for the cede-control theorem: history records brightness 40,
the bulb reads 55 — the tick is a no-op. -/
theorem evening_cedes_to_external_control_witness :
    ControlEveningLightsProgram.run
        { active := true, minutes_before_sunset_start := 30,
          minutes_after_sunset_peak := 0, minutes_after_sunset_finish := 60,
          start_brightness := 10, max_brightness := 80, final_brightness := 5,
          history := some ⟨⟨738000, 64200⟩, 40⟩ }
        { now := ⟨738000, 64500⟩, sunset := RunOutcome.ok ⟨738000, 64800⟩,
          currentBulb := Except.ok ⟨1, 55, 140, 0, 0⟩,
          bedLightOffCheck := Except.ok false,
          turnOnResult := Except.ok (), setBrightnessResult := Except.ok () }
      = ({ active := true, minutes_before_sunset_start := 30,
            minutes_after_sunset_peak := 0, minutes_after_sunset_finish := 60,
            start_brightness := 10, max_brightness := 80, final_brightness := 5,
            history := some ⟨⟨738000, 64200⟩, 40⟩ }, [], RunOutcome.ok ()) :=
  evening_cedes_to_external_control _ _ ⟨738000, 64800⟩ ⟨1, 55, 140, 0, 0⟩
    ⟨⟨738000, 64200⟩, 40⟩ rfl (Or.inl (by decide)) rfl rfl (Or.inr (by decide))

/-- C5: inside the active window with history present, a tick whose
current instant falls in the same clock minute as the history timestamp
performs no write and leaves the state untouched (whichever interference
guard fires first, every pre-write exit of the tick is that same no-op). -/
theorem evening_same_minute_noop (p : ControlEveningLightsProgram)
    (env : EveningEnv) (s0 : LocalDT) (bulb : HBLightbulbValues)
    (h : LightsHistory)
    (hs : env.sunset = RunOutcome.ok s0)
    (hw : evInA p s0 env.now ∨ evInB p s0 env.now)
    (hb : env.currentBulb = Except.ok bulb)
    (hh : p.history = some h)
    (hmin : sameClockMinute h.when env.now) :
    p.run env = (p, [], RunOutcome.ok ()) := by
  have hmoh : h.when.minuteOfHour = env.now.minuteOfHour := by
    unfold LocalDT.minuteOfHour
    rw [hmin.2]
  unfold ControlEveningLightsProgram.run
  rw [hs]
  dsimp only
  rw [if_neg (by tauto), hb]
  dsimp only
  rcases hoff : bulb.is_off with _ | _
  · rw [hh]
    by_cases hbr : bulb.brightness ≠ h.brightness
    · simp [hoff, hbr]
    · simp [hoff, hbr, hmoh]
  · rw [hh]
    simp [hoff]

/-- Witness for the same-minute theorem: history stamped 18:10:05, tick at
18:10:45, same brightness — the tick is a no-op. -/
theorem evening_same_minute_noop_witness :
    ControlEveningLightsProgram.run
        { active := true, minutes_before_sunset_start := 30,
          minutes_after_sunset_peak := 0, minutes_after_sunset_finish := 60,
          start_brightness := 10, max_brightness := 80, final_brightness := 5,
          history := some ⟨⟨738000, 65405⟩, 40⟩ }
        { now := ⟨738000, 65445⟩, sunset := RunOutcome.ok ⟨738000, 64800⟩,
          currentBulb := Except.ok ⟨1, 40, 140, 0, 0⟩,
          bedLightOffCheck := Except.ok false,
          turnOnResult := Except.ok (), setBrightnessResult := Except.ok () }
      = ({ active := true, minutes_before_sunset_start := 30,
            minutes_after_sunset_peak := 0, minutes_after_sunset_finish := 60,
            start_brightness := 10, max_brightness := 80, final_brightness := 5,
            history := some ⟨⟨738000, 65405⟩, 40⟩ }, [], RunOutcome.ok ()) :=
  evening_same_minute_noop _ _ ⟨738000, 64800⟩ ⟨1, 40, 140, 0, 0⟩
    ⟨⟨738000, 65405⟩, 40⟩ rfl (Or.inr (by decide)) rfl rfl (by decide)

/-- The two phases cannot hold at once: phase A ends at the peak instant,
phase B starts strictly after it. -/
theorem evInB_not_evInA (p : ControlEveningLightsProgram) (sunset now : LocalDT)
    (hB : evInB p sunset now) : ¬ evInA p sunset now := by
  unfold evInA evInB at *
  omega

/-- Any brightness value the acting tail writes is the interpolated target
clamped against the current bulb brightness by phase: floored at it in
phase A, capped at it in phase B. -/
theorem act_write_value (p : ControlEveningLightsProgram) (env : EveningEnv)
    (sunset : LocalDT) (cb : HBLightbulbValues) (v : Nat)
    (hv : EveningCmd.setBrightness v ∈ (p.act env sunset cb).2.1) :
    v = (if evInA p sunset env.now then
          max (p.current_brightness env.now sunset) cb.brightness
        else if evInB p sunset env.now then
          min (p.current_brightness env.now sunset) cb.brightness
        else p.current_brightness env.now sunset) := by
  unfold ControlEveningLightsProgram.act ControlEveningLightsProgram.finishWrite at hv
  dsimp only at hv
  set N := (if evInA p sunset env.now then
      max (p.current_brightness env.now sunset) cb.brightness
    else if evInB p sunset env.now then
      min (p.current_brightness env.now sunset) cb.brightness
    else p.current_brightness env.now sunset) with hN
  split at hv
  · simp at hv
  · split at hv
    · simp at hv
    · split at hv
      · simp at hv
      · split at hv
        · simp at hv
        · split at hv
          · simp at hv
            exact hv
          · simp at hv
            exact hv
      · split at hv
        · simp at hv
          exact hv
        · simp at hv
          exact hv

/-- A brightness write issued by `run` comes from the acting tail. -/
theorem run_write_from_act (p : ControlEveningLightsProgram) (env : EveningEnv)
    (s0 : LocalDT) (b : HBLightbulbValues) (v : Nat)
    (hs : env.sunset = RunOutcome.ok s0)
    (hb : env.currentBulb = Except.ok b)
    (hv : EveningCmd.setBrightness v ∈ (p.run env).2.1) :
    EveningCmd.setBrightness v ∈ (p.act env s0 b).2.1 := by
  unfold ControlEveningLightsProgram.run at hv
  rw [hs] at hv
  dsimp only at hv
  split at hv
  · simp at hv
  · rw [hb] at hv
    dsimp only at hv
    split at hv
    · simp at hv
    · split at hv
      · split at hv
        · simp at hv
        · split at hv
          · simp at hv
          · exact hv
      · exact hv

/-- In phase A, a closed-loop acting tail either does nothing or writes a
single brightness value strictly above the current one and records it. -/
theorem closed_act_A (p : ControlEveningLightsProgram) (s0 : LocalDT)
    (bulb : HBLightbulbValues) (t : LocalDT) (hA : evInA p s0 t) :
    p.act (closedEnv s0 bulb t) s0 bulb = (p, [], RunOutcome.ok ()) ∨
    ∃ v, bulb.brightness < v ∧
      (p.act (closedEnv s0 bulb t) s0 bulb =
          ({ p with history := some ⟨t, v⟩ }, [EveningCmd.setBrightness v],
            RunOutcome.ok ()) ∨
        p.act (closedEnv s0 bulb t) s0 bulb =
          ({ p with history := some ⟨t, v⟩ },
            [EveningCmd.turnOn, EveningCmd.setBrightness v],
            RunOutcome.ok ())) := by
  unfold ControlEveningLightsProgram.act ControlEveningLightsProgram.finishWrite
  dsimp only [closedEnv]
  rw [if_pos hA]
  by_cases h0 : max (p.current_brightness t s0) bulb.brightness = 0
  · rw [if_pos h0]
    left
    rfl
  · rw [if_neg h0]
    by_cases heq : max (p.current_brightness t s0) bulb.brightness = bulb.brightness
    · rw [if_pos heq]
      left
      rfl
    · rw [if_neg heq]
      have hlt : bulb.brightness < max (p.current_brightness t s0) bulb.brightness :=
        lt_of_le_of_ne (le_max_right _ _) (fun h => heq h.symm)
      cases hoff : bulb.is_off
      · right
        exact ⟨max (p.current_brightness t s0) bulb.brightness, hlt, Or.inl rfl⟩
      · right
        exact ⟨max (p.current_brightness t s0) bulb.brightness, hlt, Or.inr rfl⟩

/-- In phase B, a closed-loop acting tail either does nothing or writes a
single brightness value strictly below the current one and records it. -/
theorem closed_act_B (p : ControlEveningLightsProgram) (s0 : LocalDT)
    (bulb : HBLightbulbValues) (t : LocalDT) (hB : evInB p s0 t) :
    p.act (closedEnv s0 bulb t) s0 bulb = (p, [], RunOutcome.ok ()) ∨
    ∃ v, v < bulb.brightness ∧
      (p.act (closedEnv s0 bulb t) s0 bulb =
          ({ p with history := some ⟨t, v⟩ }, [EveningCmd.setBrightness v],
            RunOutcome.ok ()) ∨
        p.act (closedEnv s0 bulb t) s0 bulb =
          ({ p with history := some ⟨t, v⟩ },
            [EveningCmd.turnOn, EveningCmd.setBrightness v],
            RunOutcome.ok ())) := by
  have hnA : ¬ evInA p s0 t := evInB_not_evInA p s0 t hB
  unfold ControlEveningLightsProgram.act ControlEveningLightsProgram.finishWrite
  dsimp only [closedEnv]
  rw [if_neg hnA, if_pos hB]
  by_cases h0 : min (p.current_brightness t s0) bulb.brightness = 0
  · rw [if_pos h0]
    left
    rfl
  · rw [if_neg h0]
    by_cases heq : min (p.current_brightness t s0) bulb.brightness = bulb.brightness
    · rw [if_pos heq]
      left
      rfl
    · rw [if_neg heq]
      have hlt : min (p.current_brightness t s0) bulb.brightness < bulb.brightness :=
        lt_of_le_of_ne (min_le_right _ _) heq
      cases hoff : bulb.is_off
      · right
        exact ⟨min (p.current_brightness t s0) bulb.brightness, hlt, Or.inl rfl⟩
      · right
        exact ⟨min (p.current_brightness t s0) bulb.brightness, hlt, Or.inr rfl⟩

/-- In phase A, a closed-loop tick either no-ops with the whole state
unchanged or writes one brightness strictly above the current one. -/
theorem closed_step_A (p : ControlEveningLightsProgram) (s0 : LocalDT)
    (bulb : HBLightbulbValues) (t : LocalDT) (hA : evInA p s0 t) :
    p.run (closedEnv s0 bulb t) = (p, [], RunOutcome.ok ()) ∨
    ∃ v, bulb.brightness < v ∧
      (p.run (closedEnv s0 bulb t) =
          ({ p with history := some ⟨t, v⟩ }, [EveningCmd.setBrightness v],
            RunOutcome.ok ()) ∨
        p.run (closedEnv s0 bulb t) =
          ({ p with history := some ⟨t, v⟩ },
            [EveningCmd.turnOn, EveningCmd.setBrightness v],
            RunOutcome.ok ())) := by
  unfold ControlEveningLightsProgram.run
  dsimp only [closedEnv]
  rw [if_neg (fun hout => hout.1 hA)]
  cases hh : p.history with
  | some h =>
    by_cases hoff : bulb.is_off = true
    · rw [if_pos (by simp [hoff])]
      left
      rfl
    · rw [if_neg (by simp [hoff])]
      dsimp only
      by_cases hbr : bulb.brightness ≠ h.brightness
      · rw [if_pos hbr]
        left
        rfl
      · rw [if_neg hbr]
        by_cases hm : h.when.minuteOfHour = t.minuteOfHour
        · rw [if_pos hm]
          left
          rfl
        · rw [if_neg hm]
          exact closed_act_A p s0 bulb t hA
  | none =>
    rw [if_neg (by simp [hh])]
    exact closed_act_A p s0 bulb t hA

/-- In phase B, a closed-loop tick either no-ops with the whole state
unchanged or writes one brightness strictly below the current one. -/
theorem closed_step_B (p : ControlEveningLightsProgram) (s0 : LocalDT)
    (bulb : HBLightbulbValues) (t : LocalDT) (hB : evInB p s0 t) :
    p.run (closedEnv s0 bulb t) = (p, [], RunOutcome.ok ()) ∨
    ∃ v, v < bulb.brightness ∧
      (p.run (closedEnv s0 bulb t) =
          ({ p with history := some ⟨t, v⟩ }, [EveningCmd.setBrightness v],
            RunOutcome.ok ()) ∨
        p.run (closedEnv s0 bulb t) =
          ({ p with history := some ⟨t, v⟩ },
            [EveningCmd.turnOn, EveningCmd.setBrightness v],
            RunOutcome.ok ())) := by
  unfold ControlEveningLightsProgram.run
  dsimp only [closedEnv]
  rw [if_neg (fun hout => hout.2 hB)]
  cases hh : p.history with
  | some h =>
    by_cases hoff : bulb.is_off = true
    · rw [if_pos (by simp [hoff])]
      left
      rfl
    · rw [if_neg (by simp [hoff])]
      dsimp only
      by_cases hbr : bulb.brightness ≠ h.brightness
      · rw [if_pos hbr]
        left
        rfl
      · rw [if_neg hbr]
        by_cases hm : h.when.minuteOfHour = t.minuteOfHour
        · rw [if_pos hm]
          left
          rfl
        · rw [if_neg hm]
          exact closed_act_B p s0 bulb t hB
  | none =>
    rw [if_neg (by simp [hh])]
    exact closed_act_B p s0 bulb t hB

/-- Closed-loop monotonicity in phase A: with a static sunset and the
device altered only by the program's own writes, the sequence of written
brightness values — prefixed by the starting brightness — never
decreases. -/
theorem evening_chain_A (s0 : LocalDT) (ts : List LocalDT) :
    ∀ (p : ControlEveningLightsProgram) (bulb : HBLightbulbValues),
      (∀ t ∈ ts, evInA p s0 t) →
      List.Chain' (· ≤ ·) (bulb.brightness :: eveningWrites p bulb s0 ts) := by
  induction ts with
  | nil =>
    intro p bulb _
    simp [eveningWrites]
  | cons t ts ih =>
    intro p bulb hA
    have hstep := closed_step_A p s0 bulb t (hA t (List.mem_cons_self t ts))
    unfold eveningWrites
    rcases hstep with hno | ⟨v, hlt, hw | hw⟩
    · rw [hno]
      exact ih p bulb (fun t' ht' => hA t' (List.mem_cons_of_mem _ ht'))
    · rw [hw]
      dsimp only
      refine List.chain'_cons.mpr ⟨hlt.le, ?_⟩
      exact ih { p with history := some ⟨t, v⟩ } { bulb with brightness := v }
        (fun t' ht' => hA t' (List.mem_cons_of_mem _ ht'))
    · rw [hw]
      dsimp only
      refine List.chain'_cons.mpr ⟨hlt.le, ?_⟩
      exact ih { p with history := some ⟨t, v⟩ }
        { { bulb with On := 1 } with brightness := v }
        (fun t' ht' => hA t' (List.mem_cons_of_mem _ ht'))

/-- Closed-loop monotonicity in phase B: the written brightness values —
prefixed by the starting brightness — never increase. -/
theorem evening_chain_B (s0 : LocalDT) (ts : List LocalDT) :
    ∀ (p : ControlEveningLightsProgram) (bulb : HBLightbulbValues),
      (∀ t ∈ ts, evInB p s0 t) →
      List.Chain' (fun a b => b ≤ a) (bulb.brightness :: eveningWrites p bulb s0 ts) := by
  induction ts with
  | nil =>
    intro p bulb _
    simp [eveningWrites]
  | cons t ts ih =>
    intro p bulb hB
    have hstep := closed_step_B p s0 bulb t (hB t (List.mem_cons_self t ts))
    unfold eveningWrites
    rcases hstep with hno | ⟨v, hlt, hw | hw⟩
    · rw [hno]
      exact ih p bulb (fun t' ht' => hB t' (List.mem_cons_of_mem _ ht'))
    · rw [hw]
      dsimp only
      refine List.chain'_cons.mpr ⟨hlt.le, ?_⟩
      exact ih { p with history := some ⟨t, v⟩ } { bulb with brightness := v }
        (fun t' ht' => hB t' (List.mem_cons_of_mem _ ht'))
    · rw [hw]
      dsimp only
      refine List.chain'_cons.mpr ⟨hlt.le, ?_⟩
      exact ih { p with history := some ⟨t, v⟩ }
        { { bulb with On := 1 } with brightness := v }
        (fun t' ht' => hB t' (List.mem_cons_of_mem _ ht'))

/-- C6: every brightness value the evening program writes is clamped by
phase — floored at the device's current brightness in phase A, capped at
it in phase B — and consequently, over successive closed-loop ticks with a
static sunset where only the program writes the bulb, the written
brightness values are monotonically non-decreasing while the ticks stay in
phase A and non-increasing while they stay in phase B. -/
theorem evening_ramp_clamp_monotone (p : ControlEveningLightsProgram)
    (s0 : LocalDT) (bulb : HBLightbulbValues) (ts : List LocalDT) :
    (∀ (env : EveningEnv) (b : HBLightbulbValues) (v : Nat),
      env.sunset = RunOutcome.ok s0 → env.currentBulb = Except.ok b →
      EveningCmd.setBrightness v ∈ (p.run env).2.1 →
        (evInA p s0 env.now → b.brightness ≤ v) ∧
        (evInB p s0 env.now → v ≤ b.brightness)) ∧
    ((∀ t ∈ ts, evInA p s0 t) →
      List.Chain' (· ≤ ·) (bulb.brightness :: eveningWrites p bulb s0 ts)) ∧
    ((∀ t ∈ ts, evInB p s0 t) →
      List.Chain' (fun a b => b ≤ a)
        (bulb.brightness :: eveningWrites p bulb s0 ts)) := by
  refine ⟨?_, fun h => evening_chain_A s0 ts p bulb h,
    fun h => evening_chain_B s0 ts p bulb h⟩
  intro env b v hs hb hv
  have hact := run_write_from_act p env s0 b v hs hb hv
  have hval := act_write_value p env s0 b v hact
  constructor
  · intro hA
    rw [if_pos hA] at hval
    exact hval ▸ le_max_right _ _
  · intro hB
    rw [if_neg (evInB_not_evInA p s0 env.now hB), if_pos hB] at hval
    exact hval ▸ min_le_right _ _

/-- Witness for the ramp theorem: two phase-A ticks (at the window start
17:30 and at the 18:00 peak, sunset 18:00) starting from brightness 10
produce a non-decreasing write sequence. -/
theorem evening_ramp_clamp_monotone_witness :
    List.Chain' (· ≤ ·)
      (10 :: eveningWrites
        { active := true, minutes_before_sunset_start := 30,
          minutes_after_sunset_peak := 0, minutes_after_sunset_finish := 60,
          start_brightness := 10, max_brightness := 80, final_brightness := 5,
          history := none }
        ⟨1, 10, 140, 0, 0⟩ ⟨738000, 64800⟩
        [⟨738000, 63000⟩, ⟨738000, 64800⟩]) :=
  (evening_ramp_clamp_monotone
      { active := true, minutes_before_sunset_start := 30,
        minutes_after_sunset_peak := 0, minutes_after_sunset_finish := 60,
        start_brightness := 10, max_brightness := 80, final_brightness := 5,
        history := none }
      ⟨738000, 64800⟩ ⟨1, 10, 140, 0, 0⟩
      [⟨738000, 63000⟩, ⟨738000, 64800⟩]).2.1 (by decide)
